import Mathlib

/-!
Shallow embedding of the configuration layer of `defradb-rs`
(`src/config/config.rs`, `src/config/config_utils.rs`, `src/config/errors.rs`)
together with spec-modelled fragments of the datastore transaction layer
(retry coordinator and optimistic-commit semantics), and proofs of the
stated properties.

Rust machine integers are modelled as `Nat` with explicit reduction
modulo `2 ^ 64` where overflow matters; Rust `Result` is `Except`;
character-level string processing is done on `List Char` with functions
that mirror the Rust standard-library behaviour on ASCII input.
-/

namespace DefraDB

/-! ## Error taxonomy (src/config/errors.rs) -/

/-- Embedding of the `ConfigError` enum of `src/config/errors.rs`
(constructors carrying the same payloads as the Rust variants used by the
configuration code under verification). -/
inductive ConfigError where
  | FailedToWriteFile (s : String)
  | FailedToRemoveConfigFile
  | PathCannotBeHomeDir
  | UnableToExpandHomeDir
  | NoDatabaseURLProvided
  | InvalidDatabaseURL
  | LoggingConfigNotObtained
  | FailedToValidateConfig
  | InvalidP2PAddress (e a : String)
  | InvalidBootstrapPeers (e a : String)
  | InvalidLogLevel (s : String)
  | InvalidDatastoreType (s : String)
  | InvalidLogFormat (s : String)
  | ConfigToJSONFailed
  | InvalidNamedLoggerName (s : String)
  | ConfigTemplateFailed
  | CouldNotObtainLoggerConfig (e n : String)
  | NotProvidedAsKV (s : String)
  | CouldNotParseType (s : String)
  | UnknownLoggerParameter (s : String)
  | InvalidLoggerName (s : String)
  | DuplicateLoggerName (s : String)
  | ReadingConfigFile
  | LoadingConfig
  | UnableToParseByteSize
  | InvalidLoggerConfig (s : String)
  | InvalidDatastorePath (s : String)
  | MissingPortNumber
  | NoPortWithDomain
  | InvalidRootDir (s : String)
  | Custom (s : String)
deriving DecidableEq, Repr

/-! ## Character-level helpers mirroring the Rust standard library (ASCII) -/

/-- Mirrors Rust `char::to_uppercase` on ASCII characters. -/
def toUpperAscii (c : Char) : Char :=
  if 'a' ≤ c ∧ c ≤ 'z' then Char.ofNat (c.toNat - 32) else c

/-- ASCII whitespace as recognised by Rust `str::trim`
(`\x09`..`\x0d` and space). -/
def isRustWs (c : Char) : Bool :=
  c = ' ' ∨ ('\x09' ≤ c ∧ c ≤ '\x0d')

/-- Mirrors Rust `str::trim` on ASCII input: drop whitespace from both ends. -/
def trimChars (l : List Char) : List Char :=
  ((l.dropWhile isRustWs).reverse.dropWhile isRustWs).reverse

/-- Mirrors Rust `str::split(sep)` for a one-character separator:
splits at every occurrence, keeping empty pieces, and yields `[[]]`
on empty input (Rust `"".split(c)` yields one empty piece). -/
def splitChar (sep : Char) : List Char → List (List Char)
  | [] => [[]]
  | c :: rest =>
    if c = sep then [] :: splitChar sep rest
    else
      match splitChar sep rest with
      | [] => [[c]]
      | h :: t => (c :: h) :: t

theorem splitChar_ne_nil (sep : Char) (l : List Char) : splitChar sep l ≠ [] := by
  induction l with
  | nil => simp [splitChar]
  | cons c rest ih =>
    simp only [splitChar]
    split
    · simp
    · cases h : splitChar sep rest with
      | nil => simp
      | cons h t => simp

/-- Numeric value of a list of decimal digit characters (most significant
first), as accumulated by Rust `u64::from_str`. -/
def digitsVal (l : List Char) : Nat :=
  l.foldl (fun acc c => acc * 10 + (c.toNat - '0'.toNat)) 0

/-- Mirrors Rust `"...".parse::<u64>()` on a string made only of the
characters selected by `is_digit(10)`: fails on the empty string, on any
non-digit character, and on overflow past `u64::MAX`. -/
def parseU64 (l : List Char) : Option Nat :=
  if l = [] then none
  else if ¬ l.all Char.isDigit then none
  else if digitsVal l < 2 ^ 64 then some (digitsVal l) else none

/-! ## ByteSize (src/config/config_utils.rs)

The constants `B`, `KiB`, ... are the shifted values of the Rust source
(`KiB = B << 10`, etc.). -/

def B : Nat := 1
def KiB : Nat := B <<< 10
def MiB : Nat := KiB <<< 10
def GiB : Nat := MiB <<< 10
def TiB : Nat := GiB <<< 10
def PiB : Nat := TiB <<< 10

/-- Embedding of `ByteSize::set` (`src/config/config_utils.rs`, lines
17–33).  The input characters are partitioned by `is_digit(10)` into the
digit string and the unit string; the digit string is parsed as `u64`
(errors become `ConfigError::Custom(s)`); the unit is upper-cased,
trimmed and matched against the suffix table, the final catch-all arm
storing the raw digit value.  The stored `u64` is the product reduced
modulo `2 ^ 64` (release-mode wrapping semantics). -/
def ByteSize.set (s : String) : Except ConfigError Nat :=
  let p := s.data.partition Char.isDigit
  match parseU64 p.1 with
  | none => .error (.Custom s)
  | some digits =>
    let u := trimChars (p.2.map toUpperAscii)
    if u = "B".data then .ok (digits * B % 2 ^ 64)
    else if u = "KB".data ∨ u = "KIB".data then .ok (digits * KiB % 2 ^ 64)
    else if u = "MB".data ∨ u = "MIB".data then .ok (digits * MiB % 2 ^ 64)
    else if u = "GB".data ∨ u = "GIB".data then .ok (digits * GiB % 2 ^ 64)
    else if u = "TB".data ∨ u = "TIB".data then .ok (digits * TiB % 2 ^ 64)
    else if u = "PB".data ∨ u = "PIB".data then .ok (digits * PiB % 2 ^ 64)
    else .ok digits

/-- Power-of-1024 multiplier of an (already upper-cased and trimmed)
unit suffix, with multiplier 1 for the unrecognised catch-all arm. -/
def suffixMult (u : List Char) : Nat :=
  if u = "B".data then B
  else if u = "KB".data ∨ u = "KIB".data then KiB
  else if u = "MB".data ∨ u = "MIB".data then MiB
  else if u = "GB".data ∨ u = "GIB".data then GiB
  else if u = "TB".data ∨ u = "TIB".data then TiB
  else if u = "PB".data ∨ u = "PIB".data then PiB
  else 1

/-! ## Datastore configuration (src/config/config.rs, lines 152–180) -/

/-- Embedding of `MemoryConfig` (`size: u64`). -/
structure MemoryConfig where
  size : Nat
deriving DecidableEq, Repr

/-- Embedding of `BadgerConfig` (`path: String`,
`value_log_file_size: ByteSize`, the latter a `u64` payload). -/
structure BadgerConfig where
  path : String
  value_log_file_size : Nat
deriving DecidableEq, Repr

/-- Embedding of `DatastoreConfig`; `max_txn_retries` is a Rust `i32`,
modelled as `Int`. -/
structure DatastoreConfig where
  store : String
  memory : MemoryConfig
  badger : BadgerConfig
  max_txn_retries : Int
deriving DecidableEq, Repr

/-- Embedding of `DatastoreConfig::validate` (`src/config/config.rs`,
lines 174–179): the `store` string is matched against `"badger" | "memory"`;
anything else is `InvalidDatastoreType` carrying the store string. -/
def DatastoreConfig.validate (c : DatastoreConfig) : Except ConfigError Unit :=
  if c.store = "badger" ∨ c.store = "memory" then .ok ()
  else .error (.InvalidDatastoreType c.store)

/-! ## API configuration (src/config/config.rs, lines 182–253) -/

/-- Embedding of `APIConfig`. -/
structure APIConfig where
  address : String
  tls : Bool
  allowed_origins : List String
  pub_key_path : String
  priv_key_path : String
  email : String
deriving DecidableEq, Repr

/-- Embedding of `APIConfig::default_api_config`
(`src/config/config.rs`, lines 194–203). -/
def APIConfig.default_api_config : APIConfig :=
  { address := "localhost:9181"
    tls := false
    allowed_origins := []
    pub_key_path := "certs/server.key"
    priv_key_path := "certs/server.crt"
    email := "example@example.com" }

/-- One address produced by Rust `(host, 0).to_socket_addrs()`:
its loopback flag and the textual form of its IP. -/
structure AddrInfo where
  is_loopback : Bool
  ip_string : String

/-- Environment abstracting the Rust standard-library and `idna`
functions called by `APIConfig::validate`: `String::parse::<SocketAddr>`
success, `idna::Config::to_ascii`, and `(host, 0).to_socket_addrs()`. -/
structure NetEnv where
  parse_socket_addr : String → Bool
  idna_to_ascii : String → Option String
  to_socket_addrs : String → Option (List AddrInfo)

/-- Embedding of `APIConfig::is_valid_domain_name`
(`src/config/config.rs`, lines 235–244): the `idna` ASCII conversion must
succeed and return the domain unchanged. -/
def is_valid_domain_name (env : NetEnv) (domain : String) : Bool :=
  match env.idna_to_ascii domain with
  | some a => a == domain
  | none => false

/-- Loop body of `APIConfig::validate` over the resolved addresses
(`src/config/config.rs`, lines 220–227): a loopback address accepts,
an address whose IP string is not a valid domain name rejects with
`NoPortWithDomain`, and exhausting the list accepts. -/
def checkAddrs (env : NetEnv) : List AddrInfo → Except ConfigError Unit
  | [] => .ok ()
  | a :: rest =>
    if a.is_loopback then .ok ()
    else if ¬ is_valid_domain_name env a.ip_string then .error .NoPortWithDomain
    else checkAddrs env rest

/-- Embedding of `APIConfig::validate` (`src/config/config.rs`,
lines 205–233): empty address is `InvalidDatabaseURL`; the literal
`"localhost"` or any address that parses as a `SocketAddr` is
`MissingPortNumber`; a valid domain name is accepted; otherwise the
address is resolved with port 0 and the resolved addresses are checked,
resolution failure being `InvalidDatabaseURL`. -/
def APIConfig.validate (env : NetEnv) (c : APIConfig) : Except ConfigError Unit :=
  if c.address = "" then .error .InvalidDatabaseURL
  else if c.address = "localhost" ∨ env.parse_socket_addr c.address then
    .error .MissingPortNumber
  else if is_valid_domain_name env c.address then .ok ()
  else
    match env.to_socket_addrs c.address with
    | some addrs => checkAddrs env addrs
    | none => .error .InvalidDatabaseURL

/-! ## Home-directory expansion and `params_preprocessing` fragments
(src/config/config.rs, lines 106–134; src/config/config_utils.rs,
lines 61–70) -/

/-- Embedding of `expand_home_dir` (`src/config/config_utils.rs`, lines
61–70), with the process environment's home directory passed explicitly
(`dirs::home_dir()`).  The literal `"~"` is an error; a path starting
with `"~/"` joins the home directory with the remainder (an error when no
home directory is available); any other path is returned unchanged. -/
def expand_home_dir (homeDir : Option String) (path : String) : Except String String :=
  if path = "~" then .error "Path cannot be home directory."
  else if "~/".data.isPrefixOf path.data then
    match homeDir with
    | none => .error "Unable to get home directory."
    | some h => .ok (h ++ "/" ++ (String.mk (path.data.drop 2)))
  else .ok path

/-- Embedding of the key-path fragment of `Config::params_preprocessing`
(`src/config/config.rs`, lines 123–125): `expand_home_dir` is called on
`api.priv_key_path` and `api.pub_key_path`, errors are wrapped in
`ConfigError::Custom`, and the successful results are discarded — the
`APIConfig` comes back unchanged. -/
def preprocess_api_keys (homeDir : Option String) (api : APIConfig) :
    Except ConfigError APIConfig :=
  match expand_home_dir homeDir api.priv_key_path with
  | .error e => .error (.Custom ("Unable to expand home directory: " ++ e))
  | .ok _ =>
    match expand_home_dir homeDir api.pub_key_path with
    | .error e => .error (.Custom ("Unable to expand home directory: " ++ e))
    | .ok _ => .ok api

/-- Embedding of the value-log-size fragment of
`Config::params_preprocessing` (`src/config/config.rs`, lines 127–131):
the configured string for `datastore.badger.valuelogfilesize` (absent
values become `""` through `unwrap_or_default`) is fed to
`ByteSize::set` and the resulting byte count is stored. -/
def preprocess_value_log_size (value : Option String) : Except ConfigError Nat :=
  ByteSize.set (value.getD "")

/-! ## Logging configuration (src/config/config.rs, lines 289–386) -/

/-- Embedding of `LoggingConfig` (with `NamedLoggingConfig` inlined:
`named_overrides` maps a name to the pair of the stored `name` field and
the nested `LoggingConfig`). -/
inductive LoggingConfig where
  | mk (level : String) (stacktrace : Bool) (format : String) (output : String)
       (caller : Bool) (no_color : Bool) (logger : String)
       (named_overrides : List (String × String × LoggingConfig))

def LoggingConfig.level : LoggingConfig → String
  | .mk l _ _ _ _ _ _ _ => l

def LoggingConfig.logger : LoggingConfig → String
  | .mk _ _ _ _ _ _ lg _ => lg

/-- Embedding of `LoggingConfig::default_log_config`
(`src/config/config.rs`, lines 308–319): level `"info"`, format
`"csv"`, output `"stderr"`, everything else off/empty. -/
def LoggingConfig.default_log_config : LoggingConfig :=
  .mk "info" false "csv" "stderr" false false "" []

/-- The `valid_levels` array of `LoggingConfig::validate`
(`src/config/config.rs`, line 342), as character lists. -/
def validLevelsData : List (List Char) :=
  ["logLevelDebug".data, "logLevelInfo".data, "logLevelError".data, "logLevelFatal".data]

/-- Loop over `parts[1..]` of the level string
(`src/config/config.rs`, lines 350–360): every further part must split
on `=` into exactly two non-empty pieces, else `NotProvidedAsKV`.
(The Rust code also collects these pairs into `kvs`, but the
`ensure_unique_keys` helper it defines is never invoked, so the
collection has no observable effect and is not modelled.) -/
def checkKVs : List (List Char) → Except ConfigError Unit
  | [] => .ok ()
  | kv :: rest =>
    let parsed := splitChar '=' kv
    if parsed.length ≠ 2 ∨ parsed.headD [] = [] ∨ parsed.getD 1 [] = [] then
      .error (.NotProvidedAsKV (String.mk kv))
    else checkKVs rest

/-- One `key=value` pair of a named-logger override
(`src/config/config.rs`, lines 372–381): must split into two non-empty
pieces; the key must be one of the known parameters, where `"level"`
additionally requires a value from `valid_levels` (the Rust guard
`"level" if valid_levels.contains(..)`, whose failure falls through to
the catch-all `UnknownLoggerParameter`). -/
def checkLoggerPair (pair : List Char) : Except ConfigError Unit :=
  let parsed := splitChar '=' pair
  if parsed.length ≠ 2 ∨ parsed.headD [] = [] ∨ parsed.getD 1 [] = [] then
    .error (.NotProvidedAsKV (String.mk pair))
  else if parsed.headD [] = "format".data ∨ parsed.headD [] = "output".data ∨
      parsed.headD [] = "nocolor".data ∨ parsed.headD [] = "stacktrace".data ∨
      parsed.headD [] = "caller".data then .ok ()
  else if parsed.headD [] = "level".data ∧ parsed.getD 1 [] ∈ validLevelsData then .ok ()
  else .error (.UnknownLoggerParameter (String.mk (parsed.headD [])))

def checkLoggerPairs : List (List Char) → Except ConfigError Unit
  | [] => .ok ()
  | pair :: rest => do
    checkLoggerPair pair
    checkLoggerPairs rest

/-- One `module,key=value,...` named-logger override
(`src/config/config.rs`, lines 364–383): needs at least two
comma-separated parts, a non-empty module name, and valid pairs. -/
def checkLoggerConfig (config : List Char) : Except ConfigError Unit :=
  let parts := splitChar ',' config
  if parts.length < 2 then
    .error (.InvalidLoggerConfig
      "unexpected format (expected: `module,key=value;module,key=value;...`")
  else if parts.headD [] = [] then .error (.InvalidLoggerName "")
  else checkLoggerPairs parts.tail

def checkLoggerConfigs : List (List Char) → Except ConfigError Unit
  | [] => .ok ()
  | config :: rest => do
    checkLoggerConfig config
    checkLoggerConfigs rest

/-- Embedding of `LoggingConfig::validate` (`src/config/config.rs`,
lines 321–386): the level string is split on `','`; a non-empty parts
list whose first part is not in `valid_levels` (the `"logLevel..."`
spellings) is `InvalidLogLevel`; the remaining parts must be `key=value`
pairs; when `logger` is non-empty, each `';'`-separated named override is
checked.  (The inner `valid_level` function over the plain spellings
`"debug"`/`"info"`/`"error"`/`"fatal"` is defined in the Rust source but
never called.) -/
def LoggingConfig.validate (c : LoggingConfig) : Except ConfigError Unit :=
  let parts := splitChar ',' c.level.data
  if parts ≠ [] ∧ parts.headD [] ∉ validLevelsData then
    .error (.InvalidLogLevel (String.mk (parts.headD [])))
  else do
    checkKVs parts.tail
    if c.logger ≠ "" then checkLoggerConfigs (splitChar ';' c.logger.data)
    else .ok ()

/-! ## Config::default_config (src/config/config.rs, lines 39–73) -/

/-- A `serde_json::Value`. -/
inductive JValue where
  | jnull
  | jbool (b : Bool)
  | jnum (n : Int)
  | jstr (s : String)
  | jarr (xs : List JValue)
  | jobj (fields : List (String × JValue))

/-- Embedding of `serde_json::Value::as_str`: `Some` only on the
string variant. -/
def JValue.as_str : JValue → Option String
  | .jstr s => some s
  | _ => none

/-- Serialization of `APIConfig` by `serde_json::json!`: a struct with
named fields becomes a JSON object. -/
def APIConfig.toJson (c : APIConfig) : JValue :=
  .jobj [("address", .jstr c.address), ("tls", .jbool c.tls),
         ("allowed_origins", .jarr (c.allowed_origins.map .jstr)),
         ("pub_key_path", .jstr c.pub_key_path),
         ("priv_key_path", .jstr c.priv_key_path),
         ("email", .jstr c.email)]

/-- Outcome of running Rust code that may panic. -/
inductive PanicOr (α : Type) where
  | panics
  | ret (a : α)
deriving DecidableEq, Repr

/-- Embedding of the head of `Config::default_config`
(`src/config/config.rs`, lines 39–46): the first `set_default` call
evaluates `json!(APIConfig::default_api_config()).as_str().unwrap()`.
`as_str()` of a JSON object is `None`, so the `unwrap()` panics before
anything else runs; the remainder of the function (config-crate calls
and file merging, external I/O) is abstracted as `rest`, entered only
when the unwrap produces a string. -/
def Config.default_config (rest : String → PanicOr (Except ConfigError Unit)) :
    PanicOr (Except ConfigError Unit) :=
  match (APIConfig.default_api_config.toJson).as_str with
  | none => .panics
  | some s => rest s

/-! ## Spec-modelled datastore layer

The transaction lifecycle, optimistic-commit conflict detection and the
retry coordinator are described in the specification (sections 4.3–4.4,
5 and 8) but their implementation is not among the repository's source
files (`src/datastore/` holds only trait declarations), so they are
modelled from the specification's words. -/

/-- Modelled from the spec: the error taxonomy of section 7 for the
datastore layer (the implementation is absent from the sources). -/
inductive DatastoreError where
  | NotFound
  | ReadOnly
  | InvalidQuery
  | TransactionClosed
  | TxnConflict
  | BackendIO
  | InvalidDatastoreType
deriving DecidableEq, Repr

/-- Modelled from the spec: the attempt loop of the Retry Coordinator
(section 4.4; `run_with_retry` itself is absent from the sources).
`outcome i` tells whether the unit of work's commit succeeds on attempt
`i` (1-based); `fuel` is the number of attempts still allowed.  Each
attempt either succeeds (returning its index) or consumes one attempt;
an exhausted budget surfaces `TxnConflict`. -/
def runFrom (outcome : Nat → Bool) : Nat → Nat → Except DatastoreError Nat
  | _, 0 => .error .TxnConflict
  | i, fuel + 1 => if outcome i then .ok i else runFrom outcome (i + 1) fuel

/-- Modelled from the spec: `run_with_retry` (sections 4.4 and 6; absent
from the sources).  The budget is the initial attempt plus
`max_txn_retries` retries — `max_txn_retries = 0` means the first
conflict is terminal after exactly one attempt. -/
def run_with_retry (outcome : Nat → Bool) (max_txn_retries : Nat) :
    Except DatastoreError Nat :=
  runFrom outcome 1 (1 + max_txn_retries)

/-- Modelled from the spec: a Transaction's write buffer and the version
at which its snapshot was taken (section 3; the implementation is absent
from the sources). -/
structure Txn where
  writes : List String
  snapshot : Nat

/-- Modelled from the spec: the committed state of a Datastore — a
version counter and the committed writes, each stamped with the version
at which it was committed (sections 4.3 and 5; absent from the
sources). -/
structure DB where
  version : Nat
  committed : List (Nat × String)

/-- Modelled from the spec: optimistic conflict detection (section 4.3)
— a transaction conflicts when some key it wrote was committed by
another transaction at or after this transaction's snapshot version. -/
def Txn.conflicts (t : Txn) (db : DB) : Bool :=
  t.writes.any fun k => db.committed.any fun p => decide (t.snapshot ≤ p.1) && (p.2 == k)

/-- Modelled from the spec: `commit` (section 4.3; absent from the
sources) — on conflict report `TxnConflict` applying nothing; on success
stamp this transaction's writes with the current version and advance the
version counter. -/
def DB.commit (db : DB) (t : Txn) : Except DatastoreError DB :=
  if t.conflicts db then .error .TxnConflict
  else .ok ⟨db.version + 1, db.committed ++ t.writes.map fun k => (db.version, k)⟩

/-! ## Claim theorems -/

/-- C2: `DatastoreConfig::validate` succeeds exactly when the `store`
field is `"memory"` or `"badger"`, and for every other store string it
fails with `InvalidDatastoreType` carrying that string. -/
theorem datastore_validate_store_types (c : DatastoreConfig) :
    (c.validate = .ok () ↔ (c.store = "memory" ∨ c.store = "badger"))
    ∧ (c.validate = .ok () ∨ c.validate = .error (.InvalidDatastoreType c.store)) := by
  unfold DatastoreConfig.validate
  by_cases h : c.store = "badger" ∨ c.store = "memory"
  · rw [if_pos h]
    exact ⟨⟨fun _ => h.elim .inr .inl, fun _ => rfl⟩, .inl rfl⟩
  · rw [if_neg h]
    refine ⟨⟨fun habs => absurd habs (by simp), fun hm => absurd (hm.elim .inr .inl) h⟩, .inr rfl⟩

/-- C2 witness: the concrete store string `"memory"` is accepted. -/
theorem datastore_validate_store_types_witness :
    DatastoreConfig.validate ⟨"memory", ⟨0⟩, ⟨"", 0⟩, 5⟩ = .ok () :=
  (datastore_validate_store_types ⟨"memory", ⟨0⟩, ⟨"", 0⟩, 5⟩).1.mpr (.inl rfl)

/-- C5 counterexample: a `DatastoreConfig` with `max_txn_retries = -1`
passes `DatastoreConfig::validate`, so validated settings can carry a
negative retry bound. -/
theorem datastore_validate_accepts_negative_retries :
    DatastoreConfig.validate ⟨"memory", ⟨0⟩, ⟨"", 0⟩, -1⟩ = .ok ()
    ∧ ((⟨"memory", ⟨0⟩, ⟨"", 0⟩, -1⟩ : DatastoreConfig).max_txn_retries < 0) :=
  ⟨rfl, by decide⟩

/-- C5 amended: `DatastoreConfig::validate` never inspects
`max_txn_retries` — its verdict is unchanged under any replacement of the
retry bound, so acceptance gives no lower bound on it. -/
theorem datastore_validate_ignores_max_txn_retries (c : DatastoreConfig) (n : Int) :
    DatastoreConfig.validate { c with max_txn_retries := n } = c.validate := rfl

/-- C4 counterexample: an empty value-log-size string makes the
preprocessing fragment fail with `ConfigError::Custom ""` instead of
succeeding with a backend default. -/
theorem value_log_size_empty_errors :
    preprocess_value_log_size (some "") = .error (.Custom "") := rfl

/-- C4 amended: whenever the configured value-log-size string is empty or
absent (`unwrap_or_default` yields `""`), `params_preprocessing`'s
`ByteSize::set` call fails with `ConfigError::Custom ""` — the empty
numeric part does not parse — so preprocessing reports an error rather
than falling back to a backend default. -/
theorem value_log_size_empty_amended (v : Option String) (h : v.getD "" = "") :
    preprocess_value_log_size v = .error (.Custom "") := by
  unfold preprocess_value_log_size
  rw [h]
  rfl

/-- C4 witness: the absent-value case. -/
theorem value_log_size_empty_amended_witness :
    preprocess_value_log_size none = .error (.Custom "") :=
  value_log_size_empty_amended none rfl

/-- C6: `Config::default_config` panics on every call — its first
`set_default` argument unwraps `as_str()` of the JSON object serialised
from `APIConfig::default_api_config()`, which is `None` — so failure is
not reported as a `ConfigError` return value, whatever the rest of the
function would do. -/
theorem default_config_always_panics
    (rest : String → PanicOr (Except ConfigError Unit)) :
    Config.default_config rest = .panics := rfl

/-- C10: `APIConfig::validate` returns `MissingPortNumber` for the exact
address `"localhost"` and for every non-empty address that parses as a
`SocketAddr`, and returns `InvalidDatabaseURL` for an empty address. -/
theorem api_validate_missing_port (env : NetEnv) (c : APIConfig) :
    (c.address = "localhost" → c.validate env = .error .MissingPortNumber)
    ∧ (c.address ≠ "" → env.parse_socket_addr c.address = true →
        c.validate env = .error .MissingPortNumber)
    ∧ (c.address = "" → c.validate env = .error .InvalidDatabaseURL) := by
  refine ⟨?_, ?_, ?_⟩
  · intro h
    unfold APIConfig.validate
    rw [h, if_neg (by decide), if_pos (.inl rfl)]
  · intro h1 h2
    unfold APIConfig.validate
    rw [if_neg h1, if_pos (.inr h2)]
  · intro h
    unfold APIConfig.validate
    rw [if_pos h]

/-- C10 witness: concrete instances — the literal `"localhost"`, the
socket address `"127.0.0.1:9181"` (under an environment whose
`SocketAddr` parser accepts exactly that string, as Rust's does), and the
empty address. -/
theorem api_validate_missing_port_witness :
    APIConfig.validate ⟨fun s => s == "127.0.0.1:9181", fun _ => none, fun _ => none⟩
        { APIConfig.default_api_config with address := "localhost" } = .error .MissingPortNumber
    ∧ APIConfig.validate ⟨fun s => s == "127.0.0.1:9181", fun _ => none, fun _ => none⟩
        { APIConfig.default_api_config with address := "127.0.0.1:9181" } = .error .MissingPortNumber
    ∧ APIConfig.validate ⟨fun s => s == "127.0.0.1:9181", fun _ => none, fun _ => none⟩
        { APIConfig.default_api_config with address := "" } = .error .InvalidDatabaseURL :=
  ⟨(api_validate_missing_port _ _).1 rfl,
   (api_validate_missing_port _ _).2.1 (by decide) (by decide),
   (api_validate_missing_port _ _).2.2 rfl⟩

/-- C8: `LoggingConfig::validate` rejects every level string whose first
comma-separated part is outside the exact list `"logLevelDebug"`,
`"logLevelInfo"`, `"logLevelError"`, `"logLevelFatal"` with
`InvalidLogLevel` carrying that part — in particular the plain `"info"`
of `default_log_config`, so the default logging configuration fails its
own validation. -/
theorem logging_validate_level_check (c : LoggingConfig)
    (h : (splitChar ',' c.level.data).headD [] ∉ validLevelsData) :
    c.validate = .error (.InvalidLogLevel (String.mk ((splitChar ',' c.level.data).headD [])))
    ∧ LoggingConfig.default_log_config.validate = .error (.InvalidLogLevel "info") := by
  constructor
  · unfold LoggingConfig.validate
    dsimp only
    rw [if_pos ⟨splitChar_ne_nil ',' c.level.data, h⟩]
  · rfl

/-- C8 witness: the default logging configuration itself. -/
theorem logging_validate_level_check_witness :
    LoggingConfig.default_log_config.validate = .error (.InvalidLogLevel "info") :=
  (logging_validate_level_check LoggingConfig.default_log_config (by decide)).2

/-- Helper: with a home directory available, `expand_home_dir` fails
exactly on the literal `"~"`, and succeeds (with some expansion result)
on every other path. -/
theorem expand_home_dir_some_eq (home p : String) :
    (p = "~" ∧ expand_home_dir (some home) p = .error "Path cannot be home directory.")
    ∨ (p ≠ "~" ∧ ∃ q, expand_home_dir (some home) p = .ok q) := by
  by_cases h : p = "~"
  · exact .inl ⟨h, by unfold expand_home_dir; rw [if_pos h]⟩
  · refine .inr ⟨h, ?_⟩
    unfold expand_home_dir
    rw [if_neg h]
    by_cases hp : ("~/".data.isPrefixOf p.data : Bool)
    · exact ⟨_, by rw [if_pos hp]⟩
    · exact ⟨_, by rw [if_neg hp]⟩

/-- C9: the key-path fragment of `Config::params_preprocessing` never
rewrites `api.priv_key_path` or `api.pub_key_path` — the results of
`expand_home_dir` are discarded — and (with a home directory available)
it propagates an error exactly when one of the two fields is the literal
`"~"`. -/
theorem preprocess_api_paths_frame (home : String) (api : APIConfig) :
    (∀ api', preprocess_api_keys (some home) api = .ok api' →
      api'.priv_key_path = api.priv_key_path ∧ api'.pub_key_path = api.pub_key_path)
    ∧ ((∃ e, preprocess_api_keys (some home) api = .error e) ↔
        (api.priv_key_path = "~" ∨ api.pub_key_path = "~")) := by
  rcases expand_home_dir_some_eq home api.priv_key_path with ⟨h1, e1⟩ | ⟨h1, q1, e1⟩
  · constructor
    · intro api' hok
      unfold preprocess_api_keys at hok
      rw [e1] at hok
      cases hok
    · constructor
      · intro _
        exact .inl h1
      · intro _
        exact ⟨_, by unfold preprocess_api_keys; rw [e1]⟩
  · rcases expand_home_dir_some_eq home api.pub_key_path with ⟨h2, e2⟩ | ⟨h2, q2, e2⟩
    · constructor
      · intro api' hok
        unfold preprocess_api_keys at hok
        rw [e1, e2] at hok
        cases hok
      · constructor
        · intro _
          exact .inr h2
        · intro _
          exact ⟨_, by unfold preprocess_api_keys; rw [e1, e2]⟩
    · have hok : preprocess_api_keys (some home) api = .ok api := by
        unfold preprocess_api_keys
        rw [e1, e2]
      constructor
      · intro api' hok'
        rw [hok] at hok'
        cases hok'
        exact ⟨rfl, rfl⟩
      · constructor
        · intro ⟨e, he⟩
          rw [hok] at he
          cases he
        · intro hmem
          rcases hmem with hm | hm
          · exact absurd hm h1
          · exact absurd hm h2

/-- C9 witness: concrete cases — a `"~/"`-prefixed private-key path is
left unchanged (the expansion `/home/user/k` is discarded), and a
literal `"~"` private-key path propagates an error. -/
theorem preprocess_api_paths_frame_witness :
    (∀ api', preprocess_api_keys (some "/home/user")
        { APIConfig.default_api_config with priv_key_path := "~/k" } = .ok api' →
      api'.priv_key_path = "~/k" ∧ api'.pub_key_path = "certs/server.key")
    ∧ ∃ e, preprocess_api_keys (some "/home/user")
        { APIConfig.default_api_config with priv_key_path := "~" } = .error e :=
  ⟨(preprocess_api_paths_frame "/home/user"
      { APIConfig.default_api_config with priv_key_path := "~/k" }).1,
   (preprocess_api_paths_frame "/home/user"
      { APIConfig.default_api_config with priv_key_path := "~" }).2.mpr (.inl rfl)⟩

/-- Helper: the attempt loop surfaces `TxnConflict` exactly when every
attempt inside its budget window conflicts. -/
theorem runFrom_error_iff (outcome : Nat → Bool) (fuel i : Nat) :
    runFrom outcome i fuel = .error .TxnConflict ↔
      ∀ j, i ≤ j → j < i + fuel → outcome j = false := by
  induction fuel generalizing i with
  | zero =>
    simp only [runFrom]
    exact ⟨fun _ j h1 h2 => absurd h2 (by omega), fun _ => trivial⟩
  | succ fuel ih =>
    simp only [runFrom]
    by_cases h : outcome i
    · rw [if_pos h]
      constructor
      · intro hab
        cases hab
      · intro hall
        rw [hall i le_rfl (by omega)] at h
        cases h
    · rw [if_neg h, ih (i + 1)]
      constructor
      · intro hall j h1 h2
        rcases Nat.eq_or_lt_of_le h1 with he | hl
        · rw [he] at h
          exact Bool.eq_false_iff.mpr h
        · exact hall j hl (by omega)
      · intro hall j h1 h2
        exact hall j (by omega) (by omega)

/-- Helper: a successful attempt loop succeeds at the first succeeding
attempt inside its budget window. -/
theorem runFrom_ok (outcome : Nat → Bool) (fuel i k : Nat)
    (hk : runFrom outcome i fuel = .ok k) :
    outcome k = true ∧ i ≤ k ∧ k < i + fuel ∧
      ∀ j, i ≤ j → j < k → outcome j = false := by
  induction fuel generalizing i with
  | zero => cases hk
  | succ fuel ih =>
    simp only [runFrom] at hk
    by_cases h : outcome i
    · rw [if_pos h] at hk
      cases hk
      exact ⟨h, le_rfl, by omega, fun j h1 h2 => absurd h2 (by omega)⟩
    · rw [if_neg h] at hk
      obtain ⟨ha, hb, hc, hd⟩ := ih (i + 1) hk
      refine ⟨ha, by omega, by omega, fun j h1 h2 => ?_⟩
      rcases Nat.eq_or_lt_of_le h1 with he | hl
      · rw [he] at h
        exact Bool.eq_false_iff.mpr h
      · exact hd j hl h2

/-- C3 amended: `run_with_retry` with retry bound `n` makes at most
`1 + n` attempts; it surfaces `TxnConflict` exactly when all `1 + n`
attempts (the initial one plus `n` retries) conflict, and otherwise
succeeds at the first succeeding attempt within that budget — so with
`n = 2` and conflicts on attempts 1 and 2 only, the call succeeds on
attempt 3. -/
theorem run_with_retry_bound (outcome : Nat → Bool) (n : Nat) :
    (run_with_retry outcome n = .error .TxnConflict ↔
      ∀ i, 1 ≤ i → i ≤ 1 + n → outcome i = false)
    ∧ (∀ k, run_with_retry outcome n = .ok k →
        outcome k = true ∧ 1 ≤ k ∧ k ≤ 1 + n ∧
          ∀ j, 1 ≤ j → j < k → outcome j = false) := by
  unfold run_with_retry
  constructor
  · rw [runFrom_error_iff]
    exact ⟨fun hall i h1 h2 => hall i h1 (by omega),
           fun hall i h1 h2 => hall i h1 (by omega)⟩
  · intro k hk
    obtain ⟨ha, hb, hc, hd⟩ := runFrom_ok outcome (1 + n) 1 k hk
    exact ⟨ha, hb, by omega, hd⟩

/-- C3 witness: with retry bound 1 and a unit of work whose commit always
conflicts, the coordinator surfaces `TxnConflict`; with retry bound 2 and
success on attempt 3, the returned attempt index is 3 and attempts 1 and
2 conflicted. -/
theorem run_with_retry_bound_witness :
    run_with_retry (fun _ => false) 1 = .error .TxnConflict
    ∧ ((fun i => i == 3) 3 = true ∧ 1 ≤ 3 ∧ 3 ≤ 1 + 2 ∧
        ∀ j, 1 ≤ j → j < 3 → (fun i => i == 3) j = false) :=
  ⟨(run_with_retry_bound (fun _ => false) 1).1.mpr (fun _ _ _ => rfl),
   (run_with_retry_bound (fun i => i == 3) 2).2 3 rfl⟩

/-- C3 counterexample: with `max_txn_retries = 2` and a unit of work
whose commit conflicts on attempts 1 and 2 but succeeds on attempt 3,
`run_with_retry` performs attempt 3 and returns success — it does not
fail with `TxnConflict`. -/
theorem run_with_retry_attempt3_succeeds :
    run_with_retry (fun i => i == 3) 2 = .ok 3 := rfl

/-- Helper: unpacking a successful commit — the transaction did not
conflict and the new state stamps its writes with the old version. -/
theorem commit_ok_elim (db db' : DB) (t : Txn) (h : db.commit t = .ok db') :
    t.conflicts db = false ∧
      db' = ⟨db.version + 1, db.committed ++ t.writes.map fun k => (db.version, k)⟩ := by
  unfold DB.commit at h
  by_cases hc : t.conflicts db
  · rw [if_pos hc] at h
    cases h
  · rw [if_neg hc] at h
    cases h
    exact ⟨Bool.eq_false_iff.mpr hc, rfl⟩

/-- C7: with both transactions snapshotted at the current version of a
well-stamped store, if T1 commits first then a T2 whose write set
overlaps T1's fails its commit with `TxnConflict`, while a T2 with a
disjoint write set commits successfully. -/
theorem txn_commit_conflict_semantics (db db' : DB) (t1 t2 : Txn)
    (hinv : ∀ p ∈ db.committed, p.1 < db.version)
    (h1 : t1.snapshot = db.version) (h2 : t2.snapshot = db.version)
    (hc1 : db.commit t1 = .ok db') :
    ((∃ k, k ∈ t1.writes ∧ k ∈ t2.writes) → db'.commit t2 = .error .TxnConflict)
    ∧ ((∀ k, k ∈ t1.writes → k ∉ t2.writes) → ∃ db'', db'.commit t2 = .ok db'') := by
  obtain ⟨-, hdb'⟩ := commit_ok_elim db db' t1 hc1
  constructor
  · intro ⟨k, hk1, hk2⟩
    have hconf : t2.conflicts db' = true := by
      rw [hdb']
      simp only [Txn.conflicts, List.any_eq_true, List.mem_append, List.mem_map,
        Bool.and_eq_true, decide_eq_true_iff, beq_iff_eq]
      exact ⟨k, hk2, ⟨(db.version, k), .inr ⟨k, hk1, rfl⟩, by rw [h2], rfl⟩⟩
    unfold DB.commit
    rw [if_pos hconf]
  · intro hdisj
    have hconf : ¬ t2.conflicts db' = true := by
      rw [hdb']
      simp only [Txn.conflicts, List.any_eq_true, List.mem_append, List.mem_map,
        Bool.and_eq_true, decide_eq_true_iff, beq_iff_eq]
      intro habs
      obtain ⟨k, hk2, p, hp, hle, hpe⟩ := habs
      rcases hp with hold | ⟨k1, hk1, hfe⟩
      · rw [h2] at hle
        exact absurd (hinv p hold) (by omega)
      · rw [← hfe] at hpe
        have hke : k1 = k := hpe
        rw [hke] at hk1
        exact absurd hk2 (hdisj k hk1)
    refine ⟨⟨db'.version + 1, db'.committed ++ t2.writes.map fun k => (db'.version, k)⟩, ?_⟩
    unfold DB.commit
    rw [if_neg hconf]

/-- C7 witness: concrete transactions over an empty store — T1 and T2
both writing key `a` conflict after T1 commits, while a T2 writing only
key `b` commits after the same T1. -/
theorem txn_commit_conflict_semantics_witness :
    DB.commit ⟨1, [(0, "a")]⟩ ⟨["a"], 0⟩ = .error .TxnConflict
    ∧ ∃ db'', DB.commit ⟨1, [(0, "a")]⟩ ⟨["b"], 0⟩ = .ok db'' :=
  ⟨(txn_commit_conflict_semantics ⟨0, []⟩ ⟨1, [(0, "a")]⟩ ⟨["a"], 0⟩ ⟨["a"], 0⟩
      (by simp) rfl rfl rfl).1 ⟨"a", by simp, by simp⟩,
   (txn_commit_conflict_semantics ⟨0, []⟩ ⟨1, [(0, "a")]⟩ ⟨["a"], 0⟩ ⟨["b"], 0⟩
      (by simp) rfl rfl rfl).2 (by simp)⟩

/-- C1 counterexample: an input made of decimal digits followed by the
unit suffix `MB` whose numeric part exceeds `u64::MAX` makes
`ByteSize::set` return `ConfigError::Custom` (the `u64` parse fails) —
nothing is stored, so the claim's universal statement fails. -/
theorem byteSize_set_overflow_counterexample :
    ByteSize.set "99999999999999999999MB" =
      .error (.Custom "99999999999999999999MB") := rfl

/-- C1 amended: for an input of decimal digits followed by a (digit-free,
ASCII) unit string whose numeric part fits in `u64`, `ByteSize::set`
stores the numeric part multiplied by the power-of-1024 multiplier of the
suffix (1 for an unrecognised or absent suffix), reduced modulo `2 ^ 64`;
in particular `set "64MB"` stores `64 * 1024 ^ 2` and `set "100"` stores
`100`. -/
theorem byteSize_set_amended (dl ul : List Char)
    (hne : dl ≠ []) (hdig : ∀ c ∈ dl, c.isDigit = true)
    (hnd : ∀ c ∈ ul, c.isDigit = false)
    (hfit : digitsVal dl < 2 ^ 64) :
    ByteSize.set (String.mk (dl ++ ul)) =
      .ok (digitsVal dl * suffixMult (trimChars (ul.map toUpperAscii)) % 2 ^ 64)
    ∧ ByteSize.set "64MB" = .ok (64 * 1024 ^ 2)
    ∧ ByteSize.set "100" = .ok 100 := by
  refine ⟨?_, rfl, rfl⟩
  have hpart : (dl ++ ul).partition Char.isDigit = (dl, ul) := by
    rw [List.partition_eq_filter_filter, List.filter_append, List.filter_append]
    have ha : dl.filter Char.isDigit = dl := List.filter_eq_self.mpr hdig
    have hb : ul.filter Char.isDigit = [] := by
      rw [List.filter_eq_nil_iff]
      intro a haa
      simp [hnd a haa]
    have hc : dl.filter (not ∘ Char.isDigit) = [] := by
      rw [List.filter_eq_nil_iff]
      intro a haa
      simp [Function.comp, hdig a haa]
    have hd : ul.filter (not ∘ Char.isDigit) = ul := by
      rw [List.filter_eq_self]
      intro a haa
      simp [Function.comp, hnd a haa]
    rw [ha, hb, hc, hd]
    simp
  have hparse : parseU64 dl = some (digitsVal dl) := by
    unfold parseU64
    rw [if_neg hne, if_neg (not_not_intro (List.all_eq_true.mpr hdig)), if_pos hfit]
  unfold ByteSize.set
  dsimp only
  rw [hpart]
  dsimp only
  rw [hparse]
  unfold suffixMult
  split_ifs <;> first
    | rfl
    | rw [Nat.mul_one, Nat.mod_eq_of_lt hfit]

/-- C1 witness: the amended statement at the concrete split
`"64" ++ "MB"`. -/
theorem byteSize_set_amended_witness :
    ByteSize.set (String.mk (['6', '4'] ++ ['M', 'B'])) =
      .ok (digitsVal ['6', '4'] *
        suffixMult (trimChars (['M', 'B'].map toUpperAscii)) % 2 ^ 64)
    ∧ ByteSize.set "64MB" = .ok (64 * 1024 ^ 2)
    ∧ ByteSize.set "100" = .ok 100 :=
  byteSize_set_amended ['6', '4'] ['M', 'B']
    (by decide) (by decide) (by decide) (by decide)

end DefraDB
